import Mathlib

/-!
# Psykalytics-stressio: the session engine of `main.go`

A shallow embedding of `Session.GetEvent`, `Session.SendEvent` and
`Session.Run`, and the properties of the confirmation poller and of the
per-session pipeline.

Modelling conventions.

* The remote service, the clock and the `encoding/json` decoder are external:
  they are the fields of `Env`, and every theorem quantifies over `Env`.
* `World` is the observable history of one session: the `POST /send` requests
  issued so far (in order), the confirmation queries issued so far, and the
  number of clock readings taken.  The k-th `client.Do` of a session receives
  `Env.clientDo k`, the k-th query of one poller receives `Env.httpGet url k`.
* `uint32` values are naturals, `int32` values are integers; the conversion
  `int32(reqno)` is `toInt32`, with its wrap-around.
* `go func() { s.GetEvent(stats, id) }()` appends `id` to `RunState.spawned`;
  `wg.Wait()` runs the spawned pollers to completion.  A poller reads
  `s.Session_id`, which is not written after registration, and writes only its
  own slot `s.Events[id]`, so the slots after the join do not depend on how
  the pollers interleave with each other or with later submissions.
* A run-time panic (slice index out of range) is recorded in
  `RunState.panicked`; the process stops there and no join takes place.
* `GetEvent.loop` is defined by well-founded recursion on the attempt counter,
  so `GetEvent` and `Run` are total functions: every statement below is about
  a result that the code does produce.
-/

namespace Stressio

/-! ## Data model -/

/-- Values of `time.Time`, as nanoseconds since the zero instant; the zero value is `0`. -/
abbrev Time := Nat

/-- Values of the Go interface `error` (a nil error is `none : Option GoError`). -/
inductive GoError where
  /-- An error made by `errors.New` in this program. -/
  | errorsNew (msg : String)
  /-- An error returned by `net/http`, `bytes` or `encoding/json`. -/
  | lib (msg : String)
  deriving DecidableEq, Repr

/-- Contents of a byte buffer. -/
abbrev Bytes := List Nat

structure DTOSessionId where
  Session_id : String
  deriving DecidableEq, Repr

structure DTOEvent where
  /-- The field `Type` of the source. -/
  Type_ : String
  Sint : Int
  Lint : Int
  Sstr : String
  Lstr : String
  deriving DecidableEq, Repr

def EmptyEvent : DTOEvent := ⟨"", 0, 0, "", ""⟩

structure DTOCheckEvent where
  Timestamp : Time
  Sstr : String
  deriving DecidableEq, Repr

structure SessionConfig where
  /-- A `uint32`. -/
  EventCount : Nat
  deriving DecidableEq, Repr

structure EventStats where
  Bsend : Time
  Asend : Time
  DBTime : Time
  Brecv : Time
  Arecv : Time
  /-- A `uint32`. -/
  Attempts : Nat
  Err : Option GoError
  deriving DecidableEq, Repr

/-- The zero value of `EventStats`, as `make` leaves it in every slot. -/
instance : Inhabited EventStats := ⟨⟨0, 0, 0, 0, 0, 0, none⟩⟩

structure Session where
  Id : Int
  Config : SessionConfig
  Events : List EventStats
  Session_id : String
  Err : Option GoError
  deriving DecidableEq, Repr

def BASEURL : String := "http://192.168.109.149:8080"

/-! ## The transport and the world -/

/-- An `*http.Request` as built by `SendEvent`: method, URL, the marshalled event and the headers
in the order they are set. -/
structure Request where
  Method : String
  URL : String
  Body : DTOEvent
  Header : List (String × String)
  deriving DecidableEq, Repr

/-- An `*http.Response`: its status code, and what `buf.ReadFrom(resp.Body)` yields. -/
structure Response where
  StatusCode : Int
  Body : Except GoError Bytes

/-- One confirmation query, as seen on the wire: the event it asks about and the URL. -/
structure GetCall where
  event_id : Int
  url : String
  deriving DecidableEq, Repr

/-- The external collaborators of one session. -/
structure Env where
  /-- The value of the k-th `time.Now()`. -/
  timeNow : Nat → Time
  /-- The result of the k-th `s.client.Do(request)` of the session. -/
  clientDo : Nat → Request → Except GoError Response
  /-- The result of the k-th `http.Get(url)` of the poller that queries `url`. -/
  httpGet : String → Nat → Except GoError Response
  /-- The function `json.Unmarshal(b, &dtosession_id)`: the decoded value and the error. -/
  unmarshalSessionId : Bytes → DTOSessionId × Option GoError
  /-- The function `json.Unmarshal(b, &ce)`: the decoded value and the error. -/
  unmarshalCheckEvent : Bytes → DTOCheckEvent × Option GoError

/-- The history of a session. -/
structure World where
  posts : List Request
  gets : List GetCall
  clock : Nat
  deriving DecidableEq, Repr

/-- The call `time.Now()`. -/
def timeNow (env : Env) (w : World) : Time × World :=
  (env.timeNow w.clock, { w with clock := w.clock + 1 })

/-- The conversion `int32(n)` of a `uint32`. -/
def toInt32 (n : Nat) : Int :=
  if n % 2 ^ 32 < 2 ^ 31 then ((n % 2 ^ 32 : Nat) : Int) else ((n % 2 ^ 32 : Nat) : Int) - 2 ^ 32

/-! ## `Session.GetEvent` -/

/-- The `for` loop of `GetEvent` (lines 92-118); `q` counts the queries this poller has issued. -/
def GetEvent.loop (env : Env) (url : String) (event_id : Int)
    (stats : EventStats) (w : World) (q : Nat) : EventStats × World :=
  let w1 : World := { w with gets := w.gets ++ [⟨event_id, url⟩] }
  match env.httpGet url q with
  | .error err => ({ stats with Err := some err }, w1)
  | .ok resp =>
    if resp.StatusCode = 200 then
      match resp.Body with
      | .error err => ({ stats with Err := some err }, w1)
      | .ok buf =>
        let (ce, err) := env.unmarshalCheckEvent buf
        let stats1 := { stats with DBTime := ce.Timestamp }
        match err with
        | some e => ({ stats1 with Err := some e }, w1)
        | none => (stats1, w1)
    else
      let stats1 := { stats with Attempts := (stats.Attempts + 1) % 2 ^ 32 }
      if stats1.Attempts ≥ 10 then
        ({ stats1 with Err := some (GoError.errorsNew "max attempts reached") }, w1)
      else
        GetEvent.loop env url event_id stats1 w1 (q + 1)
termination_by (if stats.Attempts < 10 then 10 - stats.Attempts else 11)
decreasing_by
  simp only [ge_iff_le, not_le] at *
  split <;> split <;> omega

/-- The method `GetEvent(stats, event_id)` of a session whose identifier is `Session_id`. -/
def GetEvent (env : Env) (w : World) (Session_id : String) (stats : EventStats)
    (event_id : Int) : EventStats × World :=
  let (now, w) := timeNow env w
  let stats := { stats with Brecv := now }
  let uri := "/session/" ++ Session_id ++ "/event/" ++ toString event_id
  let stats := { stats with Attempts := 0 }
  let (stats, w) := GetEvent.loop env (BASEURL ++ uri) event_id stats w 0
  let (now, w) := timeNow env w
  ({ stats with Arecv := now }, w)

/-! ## `Session.SendEvent` -/

/-- The call `json.Marshal(data)` on a `DTOEvent`.  A struct of strings and integers is always
encodable, so the call returns no error; the encoded bytes are represented by the event. -/
def jsonMarshal (data : DTOEvent) : Except GoError DTOEvent := .ok data

/-- The call `http.NewRequest(method, url, body)`.  It fails only on a malformed method or URL;
`SendEvent` passes the constants `"POST"` and `BASEURL + "/send"`, which are well formed. -/
def httpNewRequest (method url : String) (body : DTOEvent) : Except GoError Request :=
  .ok ⟨method, url, body, []⟩

/-- The call `request.Header.Set(key, value)`. -/
def Request.headerSet (r : Request) (key value : String) : Request :=
  { r with Header := r.Header.filter (fun kv => kv.1 != key) ++ [(key, value)] }

/-- The method `SendEvent(data, session_id)`: the returned pair and the world after the call. -/
def SendEvent (env : Env) (w : World) (data : DTOEvent) (session_id : String) :
    (String × Option GoError) × World :=
  match jsonMarshal data with
  | .error _ => (("", some (GoError.errorsNew "unable to marshal data")), w)
  | .ok datastr =>
    match httpNewRequest "POST" (BASEURL ++ "/send") datastr with
    | .error err => (("", some err), w)
    | .ok request =>
      let request := request.headerSet "Content-Type" "application/json; charset=UTF-8"
      let request := if session_id ≠ "" then request.headerSet "session_id" session_id else request
      let w1 : World := { w with posts := w.posts ++ [request] }
      match env.clientDo w.posts.length request with
      | .error err => (("", some err), w1)
      | .ok resp =>
        match resp.Body with
        | .error err => (("", some err), w1)
        | .ok buf =>
          if buf.length > 0 then
            let (dtosession_id, err) := env.unmarshalSessionId buf
            match err with
            | some e => (("", some e), w1)
            | none => ((dtosession_id.Session_id, none), w1)
          else
            (("", none), w1)

/-! ## `Session.Run` -/

/-- The state of a run: the session, the world, the identifiers of the pollers started by the
`go` statement so far (in order), and the panic that stopped the run, if any. -/
structure RunState where
  s : Session
  w : World
  spawned : List Int
  panicked : Option String

/-- The body `func(id int32) { ... }(int32(reqno))` of the submission loop (lines 169-189). -/
def Run.body (env : Env) (st : RunState) (id : Int) : RunState :=
  if 0 ≤ id ∧ id.toNat < st.s.Events.length then
    let stats := st.s.Events.getD id.toNat default
    let (now, w) := timeNow env st.w
    let stats := { stats with Bsend := now }
    let (r, w) := SendEvent env w
      ⟨"event", id, 0, "event_" ++ toString id, ""⟩ st.s.Session_id
    let (now, w) := timeNow env w
    let stats := { stats with Asend := now }
    match r.2 with
    | some err =>
      { st with s := { st.s with Events := st.s.Events.set id.toNat { stats with Err := some err } },
                w := w }
    | none =>
      { st with s := { st.s with Events := st.s.Events.set id.toNat stats },
                w := w, spawned := st.spawned ++ [id] }
  else
    { st with panicked := some ("index out of range [" ++ toString id ++ "]") }

/-- The loop `for reqno := range s.Config.EventCount`: `n` iterations remain, the next one is
`reqno`.  A panic ends the run. -/
def Run.loop (env : Env) : Nat → Nat → RunState → RunState
  | 0, _, st => st
  | n + 1, reqno, st =>
    let st1 := Run.body env st (toInt32 reqno)
    match st1.panicked with
    | some _ => st1
    | none => Run.loop env n (reqno + 1) st1

/-- One spawned task `s.GetEvent(stats, id)`, with `stats = &s.Events[id]`. -/
def Run.poll (env : Env) (st : RunState) (id : Int) : RunState :=
  match st.s.Events[id.toNat]? with
  | some stats =>
    let (stats1, w) := GetEvent env st.w st.s.Session_id stats id
    { st with s := { st.s with Events := st.s.Events.set id.toNat stats1 }, w := w }
  | none => st

/-- The call `wg.Wait()`: every spawned poller has run to completion. -/
def Run.wgWait (env : Env) (st : RunState) : RunState :=
  st.spawned.foldl (Run.poll env) st

/-- The method `Run()`. -/
def Run (env : Env) (s : Session) (w : World) : RunState :=
  let (r, w) := SendEvent env w EmptyEvent ""
  let s := { s with Session_id := r.1 }
  let s := { s with Events := List.replicate s.Config.EventCount default }
  match r.2 with
  | some err => { s := { s with Err := some err }, w := w, spawned := [], panicked := none }
  | none =>
    let st := Run.loop env s.Config.EventCount 0 { s := s, w := w, spawned := [], panicked := none }
    match st.panicked with
    | some _ => st
    | none => Run.wgWait env st

/-! ## Auxiliary notions used in the statements -/

/-- A response that makes the poller query again: the service answered with a status other
than 200. -/
def isNonSuccess : Except GoError Response → Bool
  | .ok resp => decide (resp.StatusCode ≠ 200)
  | .error _ => false

/-- The URL polled by `GetEvent` for event `event_id` of session `Session_id`. -/
def pollURL (Session_id : String) (event_id : Int) : String :=
  BASEURL ++ ("/session/" ++ Session_id ++ "/event/" ++ toString event_id)

/-- What the status-200 branch of the poller (lines 98-112) leaves in the slot. -/
def onSuccess (env : Env) (stats : EventStats) (resp : Response) : EventStats :=
  match resp.Body with
  | .error err => { stats with Err := some err }
  | .ok buf =>
    match (env.unmarshalCheckEvent buf).2 with
    | some e => { stats with DBTime := (env.unmarshalCheckEvent buf).1.Timestamp, Err := some e }
    | none => { stats with DBTime := (env.unmarshalCheckEvent buf).1.Timestamp }

/-- The error recorded when the retry budget is used up. -/
def maxAttemptsReached : GoError := GoError.errorsNew "max attempts reached"

/-- The number of confirmation queries a call of `GetEvent` issues. -/
def queriesIssued (env : Env) (w : World) (Session_id : String) (stats : EventStats)
    (event_id : Int) : Nat :=
  (GetEvent env w Session_id stats event_id).2.gets.length - w.gets.length

/-- The number of non-success responses among the first `k` answers to the queries of `url`. -/
def countNonSuccess (env : Env) (url : String) (k : Nat) : Nat :=
  (List.range k).countP (fun j => isNonSuccess (env.httpGet url j))

/-- The request that `SendEvent(data, session_id)` hands to `client.Do`. -/
def mkRequest (data : DTOEvent) (session_id : String) : Request :=
  let request : Request := ⟨"POST", BASEURL ++ "/send", data, []⟩
  let request := request.headerSet "Content-Type" "application/json; charset=UTF-8"
  if session_id ≠ "" then request.headerSet "session_id" session_id else request

/-- What `SendEvent` returns when `client.Do` is the `k`-th call of the session and is handed
`request` (lines 136-153). -/
def sendOutcome (env : Env) (k : Nat) (request : Request) : String × Option GoError :=
  match env.clientDo k request with
  | .error err => ("", some err)
  | .ok resp =>
    match resp.Body with
    | .error err => ("", some err)
    | .ok buf =>
      if buf.length > 0 then
        match (env.unmarshalSessionId buf).2 with
        | some e => ("", some e)
        | none => ((env.unmarshalSessionId buf).1.Session_id, none)
      else
        ("", none)

/-- The event that `Run` submits for index `id` (lines 172-178). -/
def eventData (id : Int) : DTOEvent := ⟨"event", id, 0, "event_" ++ toString id, ""⟩

/-- The slot of event `i` once its submission has returned, in a run whose event loop starts in
world `w0` with session identifier `sid`. -/
def submittedSlot (env : Env) (w0 : World) (sid : String) (i : Nat) : EventStats :=
  { Bsend := env.timeNow (w0.clock + 2 * i)
    Asend := env.timeNow (w0.clock + 2 * i + 1)
    DBTime := 0
    Brecv := 0
    Arecv := 0
    Attempts := 0
    Err := (sendOutcome env (w0.posts.length + i) (mkRequest (eventData i) sid)).2 }

/-- The state of the event loop of `Run` before iteration `k`, for a session configured for `N`
events whose loop starts in world `w0` with session identifier `sid`: the first
`min k 2147483648` events have been submitted, in index order. -/
structure Run.Inv (env : Env) (N : Nat) (sid : String) (w0 : World) (k : Nat)
    (st : RunState) : Prop where
  bound : k ≤ N
  len : st.s.Events.length = N
  sid_eq : st.s.Session_id = sid
  config : st.s.Config.EventCount = N
  posts : st.w.posts
    = w0.posts
      ++ (List.range (min k 2147483648)).map (fun (i : Nat) => mkRequest (eventData i) sid)
  gets : st.w.gets = w0.gets
  clock : st.w.clock = w0.clock + 2 * min k 2147483648
  panic : st.panicked
    = if k ≤ 2147483648 then none else some "index out of range [-2147483648]"
  slots : ∀ i, i < N → st.s.Events[i]?
    = some (if i < min k 2147483648 then submittedSlot env w0 sid i else default)
  spawned : st.spawned
    = ((List.range (min k 2147483648)).filter (fun (i : Nat) =>
        (sendOutcome env (w0.posts.length + i) (mkRequest (eventData i) sid)).2 = none)).map
        Int.ofNat

/-- What running the pollers `ids` to completion may change between `st` and `st1`: only the
slots of `ids`, the confirmation-query log (by queries about `ids`) and the clock. -/
structure Run.Joined (ids : List Int) (st st1 : RunState) : Prop where
  config : st1.s.Config = st.s.Config
  len : st1.s.Events.length = st.s.Events.length
  sid_eq : st1.s.Session_id = st.s.Session_id
  err : st1.s.Err = st.s.Err
  posts : st1.w.posts = st.w.posts
  spawned : st1.spawned = st.spawned
  panicked : st1.panicked = st.panicked
  slots : ∀ i : Nat, (i : Int) ∉ ids → st1.s.Events[i]? = st.s.Events[i]?
  gets : ∃ new, st1.w.gets = st.w.gets ++ new ∧ ∀ c, c ∈ new → c.event_id ∈ ids

/-! ## Concrete inputs -/

/-- A service whose confirmation query answers `get k` to the k-th query of every poller, whose
submit call answers `post k` to the k-th submission, and whose confirmation payloads decode to
timestamp `42` with the error `decodeErr`. -/
def sampleEnv (post : Nat → Except GoError Response) (get : Nat → Except GoError Response)
    (decodeErr : Option GoError) : Env where
  timeNow := fun k => 1000 + k
  clientDo := fun k _ => post k
  httpGet := fun _ k => get k
  unmarshalSessionId := fun _ => (⟨"s-1"⟩, none)
  unmarshalCheckEvent := fun _ => (⟨42, "event_0"⟩, decodeErr)

/-- A submit answer with an empty body. -/
def emptyOk : Except GoError Response := .ok ⟨200, .ok []⟩

/-- A submit answer with a non-empty body. -/
def bodyOk : Except GoError Response := .ok ⟨200, .ok [123, 125]⟩

/-- A transport-level failure. -/
def connRefused : GoError := GoError.lib "connection refused"

/-- The world before the session starts. -/
def World.init : World := ⟨[], [], 0⟩

/-- A fresh session configured for `n` events. -/
def Session.fresh (n : Nat) : Session := ⟨0, ⟨n⟩, [], "", none⟩

/-! ## The poller loop -/

theorem GetEvent.loop_error (env : Env) (url : String) (id : Int) (stats : EventStats) (w : World)
    (q : Nat) (e : GoError) (h : env.httpGet url q = .error e) :
    GetEvent.loop env url id stats w q
      = ({ stats with Err := some e }, { w with gets := w.gets ++ [⟨id, url⟩] }) := by
  rw [GetEvent.loop]; simp only [h]

theorem GetEvent.loop_success (env : Env) (url : String) (id : Int) (stats : EventStats) (w : World)
    (q : Nat) (resp : Response) (h : env.httpGet url q = .ok resp) (h200 : resp.StatusCode = 200) :
    GetEvent.loop env url id stats w q
      = (onSuccess env stats resp, { w with gets := w.gets ++ [⟨id, url⟩] }) := by
  rw [GetEvent.loop]; simp only [h, h200, if_true, onSuccess]
  cases resp.Body with
  | error err => rfl
  | ok buf =>
    simp only
    cases (env.unmarshalCheckEvent buf).2 <;> rfl

theorem GetEvent.loop_exhaust (env : Env) (url : String) (id : Int) (stats : EventStats) (w : World)
    (q : Nat) (h : isNonSuccess (env.httpGet url q) = true) (ha : stats.Attempts = 9) :
    GetEvent.loop env url id stats w q
      = ({ stats with Attempts := 10, Err := some maxAttemptsReached },
         { w with gets := w.gets ++ [⟨id, url⟩] }) := by
  rw [GetEvent.loop]
  cases hr : env.httpGet url q with
  | error e => simp [hr, isNonSuccess] at h
  | ok resp =>
    have h2 : resp.StatusCode ≠ 200 := by simpa [hr, isNonSuccess] using h
    simp [h2, ha, maxAttemptsReached]

theorem GetEvent.loop_retry (env : Env) (url : String) (id : Int) (stats : EventStats) (w : World)
    (q : Nat) (h : isNonSuccess (env.httpGet url q) = true) (ha : stats.Attempts < 9) :
    GetEvent.loop env url id stats w q
      = GetEvent.loop env url id { stats with Attempts := stats.Attempts + 1 }
          { w with gets := w.gets ++ [⟨id, url⟩] } (q + 1) := by
  conv_lhs => rw [GetEvent.loop]
  cases hr : env.httpGet url q with
  | error e => simp [hr, isNonSuccess] at h
  | ok resp =>
    have h2 : resp.StatusCode ≠ 200 := by simpa [hr, isNonSuccess] using h
    have h3 : (stats.Attempts + 1) % 4294967296 = stats.Attempts + 1 :=
      Nat.mod_eq_of_lt (by omega)
    have h4 : ¬ (10 ≤ stats.Attempts + 1) := by omega
    simp [h2, h3, h4]

/-- The run of the loop from a slot with `a ≤ 9` attempts, as its `a`-th query: it stops at
the first query `m` whose answer is not a non-success response, or at query `9`. -/
theorem GetEvent.loop_cases (env : Env) (url : String) (id : Int) :
    ∀ (d : Nat) (stats : EventStats) (w : World), stats.Attempts + d = 9 →
    ∃ m, stats.Attempts ≤ m ∧ m ≤ 9 ∧
      (∀ j, stats.Attempts ≤ j → j < m → isNonSuccess (env.httpGet url j) = true) ∧
      (GetEvent.loop env url id stats w stats.Attempts).2
        = { w with gets := w.gets ++ List.replicate (m - stats.Attempts + 1) ⟨id, url⟩ } ∧
      ((∃ e, env.httpGet url m = .error e ∧
          (GetEvent.loop env url id stats w stats.Attempts).1
            = { stats with Attempts := m, Err := some e }) ∨
       (∃ resp, env.httpGet url m = .ok resp ∧ resp.StatusCode = 200 ∧
          (GetEvent.loop env url id stats w stats.Attempts).1
            = onSuccess env { stats with Attempts := m } resp) ∨
       (m = 9 ∧ isNonSuccess (env.httpGet url 9) = true ∧
          (GetEvent.loop env url id stats w stats.Attempts).1
            = { stats with Attempts := 10, Err := some maxAttemptsReached })) := by
  intro d
  induction d with
  | zero =>
    intro stats w ha
    have ha9 : stats.Attempts = 9 := by omega
    refine ⟨stats.Attempts, le_refl _, by omega, fun j h1 h2 => absurd h2 (by omega), ?_, ?_⟩
    · cases hr : env.httpGet url stats.Attempts with
      | error e => rw [GetEvent.loop_error _ _ _ _ _ _ _ hr]; simp
      | ok resp =>
        by_cases h200 : resp.StatusCode = 200
        · rw [GetEvent.loop_success _ _ _ _ _ _ _ hr h200]; simp
        · rw [GetEvent.loop_exhaust _ _ _ _ _ _ (by simp [hr, isNonSuccess, h200]) ha9]; simp
    · cases hr : env.httpGet url stats.Attempts with
      | error e =>
        exact Or.inl ⟨e, rfl, by rw [GetEvent.loop_error _ _ _ _ _ _ _ hr]⟩
      | ok resp =>
        by_cases h200 : resp.StatusCode = 200
        · exact Or.inr (Or.inl ⟨resp, rfl, h200, by rw [GetEvent.loop_success _ _ _ _ _ _ _ hr h200]⟩)
        · have hns : isNonSuccess (env.httpGet url stats.Attempts) = true := by
            simp [hr, isNonSuccess, h200]
          refine Or.inr (Or.inr ⟨ha9, ?_, by rw [GetEvent.loop_exhaust _ _ _ _ _ _ hns ha9]⟩)
          rw [← ha9]; exact hns
  | succ d ih =>
    intro stats w ha
    cases hr : env.httpGet url stats.Attempts with
    | error e =>
      refine ⟨stats.Attempts, le_refl _, by omega, fun j h1 h2 => absurd h2 (by omega), ?_,
        Or.inl ⟨e, hr, by rw [GetEvent.loop_error _ _ _ _ _ _ _ hr]⟩⟩
      rw [GetEvent.loop_error _ _ _ _ _ _ _ hr]; simp
    | ok resp =>
      by_cases h200 : resp.StatusCode = 200
      · refine ⟨stats.Attempts, le_refl _, by omega, fun j h1 h2 => absurd h2 (by omega), ?_,
          Or.inr (Or.inl ⟨resp, hr, h200, by rw [GetEvent.loop_success _ _ _ _ _ _ _ hr h200]⟩)⟩
        rw [GetEvent.loop_success _ _ _ _ _ _ _ hr h200]; simp
      · have hns : isNonSuccess (env.httpGet url stats.Attempts) = true := by
          simp [hr, isNonSuccess, h200]
        have hlt : stats.Attempts < 9 := by omega
        obtain ⟨m, hm1, hm2, hm3, hm4, hm5⟩ :=
          ih { stats with Attempts := stats.Attempts + 1 }
            { w with gets := w.gets ++ [⟨id, url⟩] } (by simp only; omega)
        simp only at hm1 hm3 hm4 hm5
        rw [GetEvent.loop_retry _ _ _ _ _ _ hns hlt]
        refine ⟨m, by omega, hm2, ?_, ?_, ?_⟩
        · intro j h1 h2
          by_cases hj : j = stats.Attempts
          · rw [hj]; exact hns
          · exact hm3 j (by omega) h2
        · rw [hm4]
          have : m - stats.Attempts + 1 = (m - (stats.Attempts + 1) + 1) + 1 := by omega
          rw [this]; simp [List.replicate_succ]
        · exact hm5

/-! ## The poller -/

@[simp] theorem onSuccess_Attempts (env : Env) (stats : EventStats) (resp : Response) :
    (onSuccess env stats resp).Attempts = stats.Attempts := by
  unfold onSuccess; split
  · rfl
  · split <;> rfl

/-- The error left by the status-200 branch: a read or decode error, or the slot's earlier one. -/
theorem onSuccess_Err (env : Env) (stats : EventStats) (resp : Response) :
    (onSuccess env stats resp).Err =
      match resp.Body with
      | .error err => some err
      | .ok buf =>
        match (env.unmarshalCheckEvent buf).2 with
        | some e => some e
        | none => stats.Err := by
  unfold onSuccess; split
  · rfl
  · split <;> simp_all

/-- Every run of `GetEvent`: it issues `m + 1` queries, where `m ≤ 9` is the first query whose
answer is not a non-success response (or `9`), and ends in one of three ways. -/
theorem GetEvent_cases (env : Env) (w : World) (sid : String) (stats : EventStats) (id : Int) :
    ∃ m, m ≤ 9 ∧
      (∀ j, j < m → isNonSuccess (env.httpGet (pollURL sid id) j) = true) ∧
      (GetEvent env w sid stats id).2
        = { posts := w.posts,
            gets := w.gets ++ List.replicate (m + 1) ⟨id, pollURL sid id⟩,
            clock := w.clock + 2 } ∧
      ((∃ e, env.httpGet (pollURL sid id) m = .error e ∧
          (GetEvent env w sid stats id).1
            = { stats with Brecv := env.timeNow w.clock, Arecv := env.timeNow (w.clock + 1),
                           Attempts := m, Err := some e }) ∨
       (∃ resp, env.httpGet (pollURL sid id) m = .ok resp ∧ resp.StatusCode = 200 ∧
          (GetEvent env w sid stats id).1
            = { onSuccess env { stats with Brecv := env.timeNow w.clock, Attempts := m } resp
                with Arecv := env.timeNow (w.clock + 1) }) ∨
       (m = 9 ∧ isNonSuccess (env.httpGet (pollURL sid id) 9) = true ∧
          (GetEvent env w sid stats id).1
            = { stats with Brecv := env.timeNow w.clock, Arecv := env.timeNow (w.clock + 1),
                           Attempts := 10, Err := some maxAttemptsReached })) := by
  obtain ⟨m, -, hm2, hm3, hm4, hm5⟩ :=
    GetEvent.loop_cases env (pollURL sid id) id 9
      { stats with Brecv := env.timeNow w.clock, Attempts := 0 }
      { w with clock := w.clock + 1 } rfl
  simp only [Nat.sub_zero] at hm3 hm4 hm5
  have hdef : GetEvent env w sid stats id
      = ({ (GetEvent.loop env (pollURL sid id) id
              { stats with Brecv := env.timeNow w.clock, Attempts := 0 }
              { w with clock := w.clock + 1 } 0).1 with
            Arecv := env.timeNow (GetEvent.loop env (pollURL sid id) id
              { stats with Brecv := env.timeNow w.clock, Attempts := 0 }
              { w with clock := w.clock + 1 } 0).2.clock },
         { (GetEvent.loop env (pollURL sid id) id
              { stats with Brecv := env.timeNow w.clock, Attempts := 0 }
              { w with clock := w.clock + 1 } 0).2 with
            clock := (GetEvent.loop env (pollURL sid id) id
              { stats with Brecv := env.timeNow w.clock, Attempts := 0 }
              { w with clock := w.clock + 1 } 0).2.clock + 1 }) := rfl
  refine ⟨m, hm2, fun j hj => hm3 j (Nat.zero_le _) hj, ?_, ?_⟩
  · rw [hdef, hm4]
  · rcases hm5 with ⟨e, he, h⟩ | ⟨resp, hr, h200, h⟩ | ⟨h9, hns, h⟩
    · exact Or.inl ⟨e, he, by rw [hdef, hm4, h]⟩
    · exact Or.inr (Or.inl ⟨resp, hr, h200, by rw [hdef, hm4, h]⟩)
    · exact Or.inr (Or.inr ⟨h9, hns, by rw [hdef, hm4, h]⟩)

theorem isNonSuccess_error (e : GoError) : isNonSuccess (.error e) = false := rfl

theorem isNonSuccess_ok (resp : Response) :
    isNonSuccess (.ok resp) = decide (resp.StatusCode ≠ 200) := rfl

/-- The number of queries issued, read off the world that `GetEvent` returns. -/
theorem queriesIssued_of_gets (env : Env) (w : World) (sid : String) (stats : EventStats)
    (id : Int) (n : Nat) (c : GetCall) (p : List Request) (k : Nat)
    (h : (GetEvent env w sid stats id).2 = ⟨p, w.gets ++ List.replicate n c, k⟩) :
    queriesIssued env w sid stats id = n := by
  unfold queriesIssued; rw [h]; simp

/-- A transport failure of the first query ends the poll at once. -/
theorem GetEvent_first_error (env : Env) (w : World) (sid : String) (stats : EventStats)
    (id : Int) (e : GoError) (h : env.httpGet (pollURL sid id) 0 = .error e) :
    GetEvent env w sid stats id
      = ({ stats with Brecv := env.timeNow w.clock, Arecv := env.timeNow (w.clock + 1),
                      Attempts := 0, Err := some e },
         { posts := w.posts, gets := w.gets ++ [⟨id, pollURL sid id⟩], clock := w.clock + 2 }) := by
  obtain ⟨m, -, hm1, hm2, hm3⟩ := GetEvent_cases env w sid stats id
  have hm0 : m = 0 := by
    by_contra hne
    have := hm1 0 (Nat.pos_of_ne_zero hne)
    rw [h, isNonSuccess_error] at this
    exact Bool.false_ne_true this
  subst hm0
  rcases hm3 with ⟨e', he, hs⟩ | ⟨resp, hr, -, -⟩ | ⟨h9, -, -⟩
  · rw [h] at he; cases he
    exact Prod.ext hs (by rw [hm2]; rfl)
  · rw [h] at hr; cases hr
  · omega

/-- A status-200 answer to the first query ends the poll at once, in the status-200 branch. -/
theorem GetEvent_first_success (env : Env) (w : World) (sid : String) (stats : EventStats)
    (id : Int) (resp : Response) (h : env.httpGet (pollURL sid id) 0 = .ok resp)
    (h200 : resp.StatusCode = 200) :
    GetEvent env w sid stats id
      = ({ onSuccess env { stats with Brecv := env.timeNow w.clock, Attempts := 0 } resp
            with Arecv := env.timeNow (w.clock + 1) },
         { posts := w.posts, gets := w.gets ++ [⟨id, pollURL sid id⟩], clock := w.clock + 2 }) := by
  obtain ⟨m, -, hm1, hm2, hm3⟩ := GetEvent_cases env w sid stats id
  have hm0 : m = 0 := by
    by_contra hne
    have := hm1 0 (Nat.pos_of_ne_zero hne)
    rw [h, isNonSuccess_ok] at this
    simp [h200] at this
  subst hm0
  rcases hm3 with ⟨e', he, -⟩ | ⟨resp', hr, -, hs⟩ | ⟨h9, -, -⟩
  · rw [h] at he; cases he
  · rw [h] at hr; cases hr
    exact Prod.ext hs (by rw [hm2]; rfl)
  · omega

/-- Ten non-success answers use up the retry budget. -/
theorem GetEvent_exhausted (env : Env) (w : World) (sid : String) (stats : EventStats)
    (id : Int) (h : ∀ k, k < 10 → isNonSuccess (env.httpGet (pollURL sid id) k) = true) :
    GetEvent env w sid stats id
      = ({ stats with Brecv := env.timeNow w.clock, Arecv := env.timeNow (w.clock + 1),
                      Attempts := 10, Err := some maxAttemptsReached },
         { posts := w.posts, gets := w.gets ++ List.replicate 10 ⟨id, pollURL sid id⟩,
           clock := w.clock + 2 }) := by
  obtain ⟨m, hm0, -, hm2, hm3⟩ := GetEvent_cases env w sid stats id
  have hns := h m (by omega)
  rcases hm3 with ⟨e', he, -⟩ | ⟨resp', hr, h200, -⟩ | ⟨h9, -, hs⟩
  · rw [he, isNonSuccess_error] at hns; exact absurd hns Bool.false_ne_true
  · rw [hr, isNonSuccess_ok] at hns; simp [h200] at hns
  · subst h9
    exact Prod.ext hs (by rw [hm2])

theorem countNonSuccess_of_all (env : Env) (url : String) (k : Nat)
    (h : ∀ j, j < k → isNonSuccess (env.httpGet url j) = true) :
    countNonSuccess env url k = k := by
  unfold countNonSuccess
  rw [List.countP_eq_length.mpr]
  · simp
  · intro j hj
    exact h j (List.mem_range.mp hj)

/-! ## Claims about the confirmation poller -/

/-- C1 (as the code has it): started on an outcome with no error, when the first confirmation
query returns a status-200 response whose body is readable and decodes, `GetEvent` stops after
that one query with no error, the decoded timestamp in `DBTime`, and attempt-count `0` (the
counter counts non-success responses only). -/
theorem GetEvent_success_first_try (env : Env) (w : World) (sid : String) (stats : EventStats)
    (id : Int) (resp : Response) (buf : Bytes)
    (hstart : stats.Err = none)
    (hget : env.httpGet (pollURL sid id) 0 = .ok resp)
    (h200 : resp.StatusCode = 200)
    (hbody : resp.Body = .ok buf)
    (hdec : (env.unmarshalCheckEvent buf).2 = none) :
    (GetEvent env w sid stats id).1.Attempts = 0 ∧
    (GetEvent env w sid stats id).1.Err = none ∧
    (GetEvent env w sid stats id).1.DBTime = (env.unmarshalCheckEvent buf).1.Timestamp ∧
    (GetEvent env w sid stats id).2.gets = w.gets ++ [⟨id, pollURL sid id⟩] ∧
    queriesIssued env w sid stats id = 1 := by
  have hq : queriesIssued env w sid stats id = 1 :=
    queriesIssued_of_gets env w sid stats id 1 ⟨id, pollURL sid id⟩ w.posts (w.clock + 2)
      (by rw [GetEvent_first_success env w sid stats id resp hget h200]; rfl)
  rw [GetEvent_first_success env w sid stats id resp hget h200]
  refine ⟨by simp, ?_, ?_, rfl, hq⟩
  · simp only [onSuccess_Err, hbody, hdec, hstart]
  · simp only [onSuccess, hbody, hdec]

/-- C1 (as the code has it) at a service that confirms on the first query. -/
theorem GetEvent_success_first_try_witness :
    (GetEvent (sampleEnv (fun _ => emptyOk) (fun _ => bodyOk) none) World.init "s-1" default 0).1.Attempts = 0 ∧
    (GetEvent (sampleEnv (fun _ => emptyOk) (fun _ => bodyOk) none) World.init "s-1" default 0).1.Err = none ∧
    (GetEvent (sampleEnv (fun _ => emptyOk) (fun _ => bodyOk) none) World.init "s-1" default 0).1.DBTime = 42 ∧
    (GetEvent (sampleEnv (fun _ => emptyOk) (fun _ => bodyOk) none) World.init "s-1" default 0).2.gets
      = [⟨0, pollURL "s-1" 0⟩] ∧
    queriesIssued (sampleEnv (fun _ => emptyOk) (fun _ => bodyOk) none) World.init "s-1" default 0 = 1 :=
  GetEvent_success_first_try (sampleEnv (fun _ => emptyOk) (fun _ => bodyOk) none) World.init "s-1"
    default 0 ⟨200, .ok [123, 125]⟩ [123, 125] rfl rfl rfl rfl rfl

/-- C1 (as the claim states it) fails: the first query is answered with status 200 and a
readable, decodable body, the outcome starts with no error, and the attempt-count left by
`GetEvent` is `0`, not `1`. -/
theorem GetEvent_attempts_zero_on_first_success :
    (default : EventStats).Err = none ∧
    (sampleEnv (fun _ => emptyOk) (fun _ => bodyOk) none).httpGet (pollURL "s-1" 0) 0
      = .ok ⟨200, .ok [123, 125]⟩ ∧
    ((sampleEnv (fun _ => emptyOk) (fun _ => bodyOk) none).unmarshalCheckEvent [123, 125]).2 = none ∧
    (GetEvent (sampleEnv (fun _ => emptyOk) (fun _ => bodyOk) none) World.init "s-1" default 0).1.Attempts = 0 ∧
    ¬ (GetEvent (sampleEnv (fun _ => emptyOk) (fun _ => bodyOk) none) World.init "s-1" default 0).1.Attempts = 1 := by
  have h := GetEvent_first_success (sampleEnv (fun _ => emptyOk) (fun _ => bodyOk) none) World.init
    "s-1" default 0 ⟨200, .ok [123, 125]⟩ rfl rfl
  refine ⟨rfl, rfl, rfl, ?_, ?_⟩
  · rw [h]; simp
  · rw [h]; simp

/-- C2: when every confirmation query (there are ten) is answered with a non-success response,
`GetEvent` stops after exactly ten queries with attempt-count `10` and the error
"max attempts reached" recorded on the outcome. -/
theorem GetEvent_always_non_success (env : Env) (w : World) (sid : String) (stats : EventStats)
    (id : Int)
    (h : ∀ k, k < 10 → ∃ resp, env.httpGet (pollURL sid id) k = .ok resp ∧ resp.StatusCode ≠ 200) :
    (GetEvent env w sid stats id).1.Attempts = 10 ∧
    (GetEvent env w sid stats id).1.Err = some (GoError.errorsNew "max attempts reached") ∧
    (GetEvent env w sid stats id).2.gets = w.gets ++ List.replicate 10 ⟨id, pollURL sid id⟩ ∧
    queriesIssued env w sid stats id = 10 := by
  have hns : ∀ k, k < 10 → isNonSuccess (env.httpGet (pollURL sid id) k) = true := by
    intro k hk
    obtain ⟨resp, hr, h2⟩ := h k hk
    rw [hr, isNonSuccess_ok]; simpa using h2
  have hq : queriesIssued env w sid stats id = 10 :=
    queriesIssued_of_gets env w sid stats id 10 ⟨id, pollURL sid id⟩ w.posts (w.clock + 2)
      (by rw [GetEvent_exhausted env w sid stats id hns])
  rw [GetEvent_exhausted env w sid stats id hns]
  exact ⟨rfl, rfl, rfl, hq⟩

/-- C2 at a service that answers every query with status 404. -/
theorem GetEvent_always_non_success_witness :
    (GetEvent (sampleEnv (fun _ => emptyOk) (fun _ => .ok ⟨404, .ok []⟩) none)
        World.init "s-1" default 3).1.Attempts = 10 ∧
    (GetEvent (sampleEnv (fun _ => emptyOk) (fun _ => .ok ⟨404, .ok []⟩) none)
        World.init "s-1" default 3).1.Err = some (GoError.errorsNew "max attempts reached") ∧
    (GetEvent (sampleEnv (fun _ => emptyOk) (fun _ => .ok ⟨404, .ok []⟩) none)
        World.init "s-1" default 3).2.gets = List.replicate 10 ⟨3, pollURL "s-1" 3⟩ ∧
    queriesIssued (sampleEnv (fun _ => emptyOk) (fun _ => .ok ⟨404, .ok []⟩) none)
        World.init "s-1" default 3 = 10 :=
  GetEvent_always_non_success (sampleEnv (fun _ => emptyOk) (fun _ => .ok ⟨404, .ok []⟩) none)
    World.init "s-1" default 3 (fun _ _ => ⟨⟨404, .ok []⟩, rfl, by decide⟩)

/-- C3: for every behaviour of the transport, when a confirmation query that `GetEvent` issues
(the `k`-th, counted from `0`) fails at the transport level, that error is recorded, no further
query is issued (`k + 1` queries in all), and the attempt-count equals the number of non-success
responses received before the failure (which is `k`); in particular, when the first query fails
the result is attempt-count `0` with the transport error set, after exactly one query. -/
theorem GetEvent_transport_failure (env : Env) (w : World) (sid : String) (stats : EventStats)
    (id : Int) :
    (∀ k e, k < queriesIssued env w sid stats id → env.httpGet (pollURL sid id) k = .error e →
      (GetEvent env w sid stats id).1.Err = some e ∧
      queriesIssued env w sid stats id = k + 1 ∧
      (GetEvent env w sid stats id).1.Attempts = countNonSuccess env (pollURL sid id) k ∧
      (GetEvent env w sid stats id).1.Attempts = k) ∧
    (∀ e, env.httpGet (pollURL sid id) 0 = .error e →
      (GetEvent env w sid stats id).1.Attempts = 0 ∧
      (GetEvent env w sid stats id).1.Err = some e ∧
      (GetEvent env w sid stats id).2.gets = w.gets ++ [⟨id, pollURL sid id⟩] ∧
      queriesIssued env w sid stats id = 1) := by
  constructor
  · intro k e hk he
    obtain ⟨m, -, hm1, hm2, hm3⟩ := GetEvent_cases env w sid stats id
    have hq : queriesIssued env w sid stats id = m + 1 :=
      queriesIssued_of_gets env w sid stats id (m + 1) ⟨id, pollURL sid id⟩ w.posts
        (w.clock + 2) hm2
    have hkm : k = m := by
      by_contra hne
      have := hm1 k (by omega)
      rw [he, isNonSuccess_error] at this
      exact Bool.false_ne_true this
    subst hkm
    rcases hm3 with ⟨e', he', hs⟩ | ⟨resp, hr, -, -⟩ | ⟨h9, hns, -⟩
    · rw [he] at he'; cases he'
      refine ⟨by rw [hs], hq, ?_, by rw [hs]⟩
      rw [hs, countNonSuccess_of_all env _ k hm1]
    · rw [he] at hr; cases hr
    · rw [← h9, he, isNonSuccess_error] at hns
      exact absurd hns Bool.false_ne_true
  · intro e he
    have hq : queriesIssued env w sid stats id = 1 :=
      queriesIssued_of_gets env w sid stats id 1 ⟨id, pollURL sid id⟩ w.posts (w.clock + 2)
        (by rw [GetEvent_first_error env w sid stats id e he]; rfl)
    rw [GetEvent_first_error env w sid stats id e he]
    exact ⟨rfl, rfl, rfl, hq⟩

/-- C3 at a service that is unreachable: the first query is issued and fails, so one query,
attempt-count `0` (the number of non-success responses before it), the transport error. -/
theorem GetEvent_transport_failure_witness :
    ((GetEvent (sampleEnv (fun _ => emptyOk) (fun _ => .error connRefused) none)
        World.init "s-1" default 0).1.Err = some connRefused ∧
     queriesIssued (sampleEnv (fun _ => emptyOk) (fun _ => .error connRefused) none)
        World.init "s-1" default 0 = 0 + 1 ∧
     (GetEvent (sampleEnv (fun _ => emptyOk) (fun _ => .error connRefused) none)
        World.init "s-1" default 0).1.Attempts
       = countNonSuccess (sampleEnv (fun _ => emptyOk) (fun _ => .error connRefused) none)
          (pollURL "s-1" 0) 0 ∧
     (GetEvent (sampleEnv (fun _ => emptyOk) (fun _ => .error connRefused) none)
        World.init "s-1" default 0).1.Attempts = 0) ∧
    ((GetEvent (sampleEnv (fun _ => emptyOk) (fun _ => .error connRefused) none)
        World.init "s-1" default 0).1.Attempts = 0 ∧
     (GetEvent (sampleEnv (fun _ => emptyOk) (fun _ => .error connRefused) none)
        World.init "s-1" default 0).1.Err = some connRefused ∧
     (GetEvent (sampleEnv (fun _ => emptyOk) (fun _ => .error connRefused) none)
        World.init "s-1" default 0).2.gets = World.init.gets ++ [⟨0, pollURL "s-1" 0⟩] ∧
     queriesIssued (sampleEnv (fun _ => emptyOk) (fun _ => .error connRefused) none)
        World.init "s-1" default 0 = 1) :=
  ⟨(GetEvent_transport_failure (sampleEnv (fun _ => emptyOk) (fun _ => .error connRefused) none)
      World.init "s-1" default 0).1 0 connRefused
      (by
        rw [queriesIssued_of_gets (sampleEnv (fun _ => emptyOk) (fun _ => .error connRefused) none)
          World.init "s-1" default 0 1 ⟨0, pollURL "s-1" 0⟩ [] 2
          (by rw [GetEvent_first_error _ _ _ _ _ connRefused rfl]; rfl)]
        exact Nat.zero_lt_one)
      rfl,
   (GetEvent_transport_failure (sampleEnv (fun _ => emptyOk) (fun _ => .error connRefused) none)
      World.init "s-1" default 0).2 connRefused rfl⟩

/-- C4: for every behaviour of the transport, the attempt-count left by `GetEvent` is at most
`10` (and at least `0`), and when it is exactly `10` the poller ended on the exhausted path:
the recorded error is "max attempts reached", ten queries were issued and each was answered
with a non-success response. -/
theorem GetEvent_attempts_bounded (env : Env) (w : World) (sid : String) (stats : EventStats)
    (id : Int) :
    0 ≤ (GetEvent env w sid stats id).1.Attempts ∧
    (GetEvent env w sid stats id).1.Attempts ≤ 10 ∧
    ((GetEvent env w sid stats id).1.Attempts = 10 →
      (GetEvent env w sid stats id).1.Err = some (GoError.errorsNew "max attempts reached") ∧
      queriesIssued env w sid stats id = 10 ∧
      ∀ k, k < 10 → ∃ resp, env.httpGet (pollURL sid id) k = .ok resp ∧ resp.StatusCode ≠ 200) := by
  obtain ⟨m, hm0, hm1, hm2, hm3⟩ := GetEvent_cases env w sid stats id
  have hq : queriesIssued env w sid stats id = m + 1 :=
    queriesIssued_of_gets env w sid stats id (m + 1) ⟨id, pollURL sid id⟩ w.posts
      (w.clock + 2) hm2
  refine ⟨Nat.zero_le _, ?_, ?_⟩
  · rcases hm3 with ⟨e, -, hs⟩ | ⟨resp, -, -, hs⟩ | ⟨-, -, hs⟩
    · rw [hs]; show m ≤ 10; omega
    · rw [hs]; simp only [onSuccess_Attempts]; omega
    · rw [hs]
  · intro h10
    rcases hm3 with ⟨e, -, hs⟩ | ⟨resp, -, -, hs⟩ | ⟨h9, hns, hs⟩
    · rw [hs] at h10; have : m = 10 := h10; omega
    · rw [hs] at h10; simp only [onSuccess_Attempts] at h10; omega
    · refine ⟨by rw [hs]; rfl, by rw [hq, h9], ?_⟩
      intro k hk
      have hk' : isNonSuccess (env.httpGet (pollURL sid id) k) = true := by
        by_cases hk9 : k = 9
        · rw [hk9]; exact hns
        · exact hm1 k (by omega)
      cases hr : env.httpGet (pollURL sid id) k with
      | error e => rw [hr, isNonSuccess_error] at hk'; exact absurd hk' Bool.false_ne_true
      | ok resp => rw [hr, isNonSuccess_ok] at hk'; exact ⟨resp, rfl, by simpa using hk'⟩

/-- C4 at a service that answers every query with status 404: attempt-count `10` comes with
the error "max attempts reached". -/
theorem GetEvent_attempts_bounded_witness :
    (GetEvent (sampleEnv (fun _ => emptyOk) (fun _ => .ok ⟨404, .ok []⟩) none)
        World.init "s-1" default 1).1.Err = some (GoError.errorsNew "max attempts reached") :=
  ((GetEvent_attempts_bounded (sampleEnv (fun _ => emptyOk) (fun _ => .ok ⟨404, .ok []⟩) none)
    World.init "s-1" default 1).2.2
    (by rw [GetEvent_exhausted (sampleEnv (fun _ => emptyOk) (fun _ => .ok ⟨404, .ok []⟩) none)
      World.init "s-1" default 1 (fun _ _ => rfl)])).1

/-- C5 (as the code has it): started on an outcome with no error, when `GetEvent` leaves
attempt-count `0` together with a set error, exactly one query was issued and either it failed
at the transport level, or it was answered with status 200 and the body could not be read, or
it was answered with status 200 and the body could not be decoded; the recorded error is that
failure. -/
theorem GetEvent_zero_attempts_with_error (env : Env) (w : World) (sid : String)
    (stats : EventStats) (id : Int)
    (hstart : stats.Err = none)
    (h0 : (GetEvent env w sid stats id).1.Attempts = 0)
    (herr : (GetEvent env w sid stats id).1.Err ≠ none) :
    queriesIssued env w sid stats id = 1 ∧
    ((∃ e, env.httpGet (pollURL sid id) 0 = .error e ∧
        (GetEvent env w sid stats id).1.Err = some e) ∨
     (∃ resp, env.httpGet (pollURL sid id) 0 = .ok resp ∧ resp.StatusCode = 200 ∧
        ((∃ e, resp.Body = .error e ∧ (GetEvent env w sid stats id).1.Err = some e) ∨
         (∃ buf e, resp.Body = .ok buf ∧ (env.unmarshalCheckEvent buf).2 = some e ∧
            (GetEvent env w sid stats id).1.Err = some e)))) := by
  obtain ⟨m, -, -, hm2, hm3⟩ := GetEvent_cases env w sid stats id
  have hq : queriesIssued env w sid stats id = m + 1 :=
    queriesIssued_of_gets env w sid stats id (m + 1) ⟨id, pollURL sid id⟩ w.posts
      (w.clock + 2) hm2
  rcases hm3 with ⟨e, he, hs⟩ | ⟨resp, hr, h200, hs⟩ | ⟨-, -, hs⟩
  · have hm : m = 0 := by rw [hs] at h0; exact h0
    subst hm
    exact ⟨hq, Or.inl ⟨e, he, by rw [hs]⟩⟩
  · have hm : m = 0 := by rw [hs] at h0; simpa using h0
    subst hm
    refine ⟨hq, Or.inr ⟨resp, hr, h200, ?_⟩⟩
    have hE : (GetEvent env w sid stats id).1.Err
        = (onSuccess env { stats with Brecv := env.timeNow w.clock, Attempts := 0 } resp).Err := by
      rw [hs]
    rw [onSuccess_Err] at hE
    cases hb : resp.Body with
    | error e => rw [hb] at hE; exact Or.inl ⟨e, rfl, hE⟩
    | ok buf =>
      rw [hb] at hE
      cases hd : (env.unmarshalCheckEvent buf).2 with
      | some e => simp only [hd] at hE; exact Or.inr ⟨buf, e, rfl, hd, hE⟩
      | none => simp only [hd] at hE; exact absurd (hE.trans hstart) herr
  · rw [hs] at h0; cases h0

/-- C5 at a service whose status-200 confirmation payload does not decode. -/
theorem GetEvent_zero_attempts_with_error_witness :
    queriesIssued (sampleEnv (fun _ => emptyOk) (fun _ => bodyOk) (some (GoError.lib "invalid character")))
        World.init "s-1" default 0 = 1 :=
  (GetEvent_zero_attempts_with_error
    (sampleEnv (fun _ => emptyOk) (fun _ => bodyOk) (some (GoError.lib "invalid character")))
    World.init "s-1" default 0 rfl
    (by rw [GetEvent_first_success _ _ _ _ _ ⟨200, .ok [123, 125]⟩ rfl rfl]; rfl)
    (by rw [GetEvent_first_success _ _ _ _ _ ⟨200, .ok [123, 125]⟩ rfl rfl]; simp [onSuccess, sampleEnv])).1

/-- C5 (as the claim states it) fails: the outcome starts with no error, the first query is
answered (status 200, readable body), so it does not fail at the transport level, the payload
does not decode, and `GetEvent` leaves attempt-count `0` together with a set error. -/
theorem GetEvent_zero_attempts_error_without_transport_failure :
    (default : EventStats).Err = none ∧
    (GetEvent (sampleEnv (fun _ => emptyOk) (fun _ => bodyOk) (some (GoError.lib "invalid character")))
        World.init "s-1" default 0).1.Attempts = 0 ∧
    (GetEvent (sampleEnv (fun _ => emptyOk) (fun _ => bodyOk) (some (GoError.lib "invalid character")))
        World.init "s-1" default 0).1.Err = some (GoError.lib "invalid character") ∧
    ¬ ∃ e, (sampleEnv (fun _ => emptyOk) (fun _ => bodyOk)
        (some (GoError.lib "invalid character"))).httpGet (pollURL "s-1" 0) 0 = .error e := by
  have h := GetEvent_first_success
    (sampleEnv (fun _ => emptyOk) (fun _ => bodyOk) (some (GoError.lib "invalid character")))
    World.init "s-1" default 0 ⟨200, .ok [123, 125]⟩ rfl rfl
  refine ⟨rfl, by rw [h]; rfl, by rw [h]; rfl, ?_⟩
  rintro ⟨e, he⟩
  cases he

/-! ## The submit call -/

/-- The call `SendEvent(data, session_id)` issues exactly one request, `mkRequest data session_id`, as
the next call of the session, and returns what `sendOutcome` describes. -/
theorem SendEvent_eq (env : Env) (w : World) (data : DTOEvent) (sid : String) :
    SendEvent env w data sid
      = (sendOutcome env w.posts.length (mkRequest data sid),
         { w with posts := w.posts ++ [mkRequest data sid] }) := by
  unfold SendEvent sendOutcome
  simp only [jsonMarshal, httpNewRequest]
  have hreq : (if sid ≠ "" then
        (Request.headerSet ⟨"POST", BASEURL ++ "/send", data, []⟩ "Content-Type"
          "application/json; charset=UTF-8").headerSet "session_id" sid
      else Request.headerSet ⟨"POST", BASEURL ++ "/send", data, []⟩ "Content-Type"
          "application/json; charset=UTF-8") = mkRequest data sid := rfl
  rw [hreq]
  cases env.clientDo w.posts.length (mkRequest data sid) with
  | error err => rfl
  | ok resp =>
    simp only
    cases resp.Body with
    | error err => rfl
    | ok buf =>
      simp only
      split
      · cases (env.unmarshalSessionId buf).2 <;> rfl
      · rfl

theorem toInt32_of_lt (k : Nat) (h : k < 2147483648) : toInt32 k = (k : Int) := by
  unfold toInt32
  have h1 : k % 2 ^ 32 = k := Nat.mod_eq_of_lt (by omega)
  rw [h1, if_pos (by omega)]

theorem toInt32_two_pow_31 : toInt32 2147483648 = -2147483648 := by decide

/-- An iteration of the event loop whose index is in bounds. -/
theorem Run.body_of_lt (env : Env) (st : RunState) (k : Nat) (h : k < st.s.Events.length) :
    Run.body env st (k : Int)
      = { s := { st.s with Events := (st.s.Events.set k
                  ⟨env.timeNow st.w.clock, env.timeNow (st.w.clock + 1),
                   (st.s.Events.getD k default).DBTime, (st.s.Events.getD k default).Brecv,
                   (st.s.Events.getD k default).Arecv, (st.s.Events.getD k default).Attempts,
                   match (sendOutcome env st.w.posts.length
                              (mkRequest (eventData k) st.s.Session_id)).2 with
                      | some e => some e
                      | none => (st.s.Events.getD k default).Err⟩) }
          w := { posts := st.w.posts ++ [mkRequest (eventData k) st.s.Session_id]
                 gets := st.w.gets
                 clock := st.w.clock + 2 }
          spawned := match (sendOutcome env st.w.posts.length
                              (mkRequest (eventData k) st.s.Session_id)).2 with
            | some _ => st.spawned
            | none => st.spawned ++ [(k : Int)]
          panicked := st.panicked } := by
  unfold Run.body
  have hb : (0 : Int) ≤ (k : Int) ∧ (k : Int).toNat < st.s.Events.length := by
    simp [h]
  rw [if_pos hb]
  simp only [timeNow, SendEvent_eq, Int.toNat_ofNat]
  have hd : (⟨"event", (k : Int), 0, "event_" ++ toString (k : Int), ""⟩ : DTOEvent)
      = eventData k := rfl
  rw [hd]
  cases (sendOutcome env st.w.posts.length (mkRequest (eventData k) st.s.Session_id)).2 <;> rfl

/-- An iteration of the event loop whose index is negative panics. -/
theorem Run.body_of_neg (env : Env) (st : RunState) (id : Int) (h : id < 0) :
    Run.body env st id
      = { st with panicked := some ("index out of range [" ++ toString id ++ "]") } := by
  unfold Run.body
  rw [if_neg (by omega)]

/-! ## The event loop of `Run` -/

theorem Run.Inv.posts_length {env : Env} {N : Nat} {sid : String} {w0 : World} {k : Nat}
    {st : RunState} (h : Run.Inv env N sid w0 k st) :
    st.w.posts.length = w0.posts.length + min k 2147483648 := by
  rw [h.posts]; simp

/-- One iteration of the event loop, below the range of `int32`: event `k` is submitted. -/
theorem Run.Inv.step_lt {env : Env} {N : Nat} {sid : String} {w0 : World} {k : Nat}
    {st : RunState} (h : Run.Inv env N sid w0 k st) (hk : k < N) (h31 : k < 2147483648) :
    Run.Inv env N sid w0 (k + 1) (Run.body env st (toInt32 k)) := by
  have hlen : k < st.s.Events.length := by rw [h.len]; exact hk
  have hmin : min k 2147483648 = k := by omega
  have hmin1 : min (k + 1) 2147483648 = k + 1 := by omega
  have hold : st.s.Events.getD k default = default := by
    rw [List.getD_eq_getElem?_getD, h.slots k hk, hmin]; simp
  have hpl : st.w.posts.length = w0.posts.length + k := by rw [h.posts_length, hmin]
  have hclk : st.w.clock = w0.clock + 2 * k := by rw [h.clock, hmin]
  rw [toInt32_of_lt k h31, Run.body_of_lt env st k hlen]
  refine ⟨hk, ?_, h.sid_eq, h.config, ?_, h.gets, ?_, ?_, ?_, ?_⟩
  · simp only [List.length_set]; exact h.len
  · simp only
    rw [h.posts, hmin, hmin1, List.range_succ, List.map_append, h.sid_eq]; simp
  · simp only; rw [hclk, hmin1]; omega
  · simp only; rw [h.panic, if_pos (by omega), if_pos (by omega)]
  · intro i hi
    simp only
    by_cases hik : i = k
    · subst hik
      rw [List.getElem?_set_self hlen, hmin1, if_pos (Nat.lt_succ_self _), hold, hpl, hclk,
        h.sid_eq]
      unfold submittedSlot
      cases (sendOutcome env (w0.posts.length + i) (mkRequest (eventData i) sid)).2 <;> rfl
    · rw [List.getElem?_set_ne (Ne.symm hik), h.slots i hi, hmin, hmin1]
      have : (i < k + 1) ↔ (i < k) := by omega
      simp only [this]
  · simp only
    rw [hmin1, List.range_succ, List.filter_append, List.map_append, hpl, h.sid_eq, h.spawned,
      hmin]
    cases hout : (sendOutcome env (w0.posts.length + k) (mkRequest (eventData k) sid)).2 with
    | some e => simp [List.filter, hout]
    | none => simp [List.filter, hout]

/-- The iteration of index `2147483648`: `int32(reqno)` is negative and the slice index panics. -/
theorem Run.Inv.step_panic {env : Env} {N : Nat} {sid : String} {w0 : World}
    {st : RunState} (h : Run.Inv env N sid w0 2147483648 st) (hk : 2147483648 < N) :
    Run.Inv env N sid w0 (2147483648 + 1) (Run.body env st (toInt32 2147483648)) := by
  rw [toInt32_two_pow_31, Run.body_of_neg env st _ (by decide)]
  have hmin : min (2147483648 + 1) 2147483648 = min 2147483648 2147483648 := by decide
  refine ⟨hk, h.len, h.sid_eq, h.config, ?_, h.gets, ?_, ?_, ?_, ?_⟩
  · rw [hmin]; exact h.posts
  · rw [hmin]; exact h.clock
  · simp only; rw [if_neg (by decide)]; rfl
  · rw [hmin]; exact h.slots
  · rw [hmin]; exact h.spawned

/-- Once the loop has passed index `2147483648` its state no longer changes. -/
theorem Run.Inv.saturate {env : Env} {N : Nat} {sid : String} {w0 : World} {k : Nat}
    {st : RunState} (h : Run.Inv env N sid w0 k st) (hk : 2147483648 < k) :
    Run.Inv env N sid w0 N st := by
  have hN := h.bound
  have hmin : min N 2147483648 = min k 2147483648 := by omega
  refine ⟨le_refl _, h.len, h.sid_eq, h.config, ?_, h.gets, ?_, ?_, ?_, ?_⟩
  · rw [hmin]; exact h.posts
  · rw [hmin]; exact h.clock
  · rw [h.panic, if_neg (by omega), if_neg (by omega)]
  · rw [hmin]; exact h.slots
  · rw [hmin]; exact h.spawned

/-- The event loop: from the state before iteration `reqno`, with `n` iterations to go, it
reaches the state before iteration `N` (or stops in the panic of iteration `2147483648`). -/
theorem Run.loop_inv (env : Env) (N : Nat) (sid : String) (w0 : World) :
    ∀ (n reqno : Nat) (st : RunState), Run.Inv env N sid w0 reqno st → st.panicked = none →
      reqno + n = N → Run.Inv env N sid w0 N (Run.loop env n reqno st) := by
  intro n
  induction n with
  | zero =>
    intro reqno st h _ hn
    have : reqno = N := by omega
    subst this
    exact h
  | succ n ih =>
    intro reqno st h hp hn
    have hle : reqno ≤ 2147483648 := by
      by_contra hgt
      rw [h.panic, if_neg hgt] at hp
      cases hp
    have hstep : Run.Inv env N sid w0 (reqno + 1) (Run.body env st (toInt32 reqno)) := by
      by_cases h31 : reqno < 2147483648
      · exact h.step_lt (by omega) h31
      · have : reqno = 2147483648 := by omega
        subst this
        exact h.step_panic (by omega)
    show Run.Inv env N sid w0 N
      (match (Run.body env st (toInt32 reqno)).panicked with
        | some _ => Run.body env st (toInt32 reqno)
        | none => Run.loop env n (reqno + 1) (Run.body env st (toInt32 reqno)))
    cases hb : (Run.body env st (toInt32 reqno)).panicked with
    | some msg =>
      simp only
      refine hstep.saturate ?_
      by_contra hgt
      rw [hstep.panic, if_pos (by omega)] at hb
      cases hb
    | none =>
      simp only
      exact ih (reqno + 1) _ hstep hb (by omega)

/-! ## The join -/

theorem Run.Joined.refl (st : RunState) : Run.Joined [] st st :=
  ⟨rfl, rfl, rfl, rfl, rfl, rfl, rfl, fun _ _ => rfl,
    ⟨[], (List.append_nil _).symm, fun _ h => absurd h (List.not_mem_nil _)⟩⟩

theorem Run.Joined.trans {id : Int} {l : List Int} {st st1 st2 : RunState}
    (h1 : Run.Joined [id] st st1) (h2 : Run.Joined l st1 st2) :
    Run.Joined (id :: l) st st2 := by
  refine ⟨h2.config.trans h1.config, h2.len.trans h1.len, h2.sid_eq.trans h1.sid_eq,
    h2.err.trans h1.err, h2.posts.trans h1.posts, h2.spawned.trans h1.spawned,
    h2.panicked.trans h1.panicked, ?_, ?_⟩
  · intro i hi
    rw [h2.slots i (fun hm => hi (List.mem_cons_of_mem _ hm)),
      h1.slots i (fun hm => hi (by rw [List.mem_singleton.mp hm]; exact List.mem_cons_self _ _))]
  · obtain ⟨new1, hg1, hn1⟩ := h1.gets
    obtain ⟨new2, hg2, hn2⟩ := h2.gets
    refine ⟨new1 ++ new2, by rw [hg2, hg1, List.append_assoc], ?_⟩
    intro c hc
    rcases List.mem_append.mp hc with h | h
    · rw [List.mem_singleton.mp (hn1 c h)]; exact List.mem_cons_self _ _
    · exact List.mem_cons_of_mem _ (hn2 c h)

/-- One poller, run to completion, touches only its own slot and logs only its own queries. -/
theorem Run.poll_joined (env : Env) (st : RunState) (id : Int) (hid : 0 ≤ id) :
    Run.Joined [id] st (Run.poll env st id) := by
  unfold Run.poll
  cases hs : st.s.Events[id.toNat]? with
  | none =>
    exact ⟨rfl, rfl, rfl, rfl, rfl, rfl, rfl, fun _ _ => rfl,
      ⟨[], (List.append_nil _).symm, fun _ h => absurd h (List.not_mem_nil _)⟩⟩
  | some stats =>
    obtain ⟨m, -, -, hm2, -⟩ := GetEvent_cases env st.w st.s.Session_id stats id
    simp only
    refine ⟨rfl, by simp, rfl, rfl, by rw [hm2], rfl, rfl, ?_, ?_⟩
    · intro i hi
      have hne : id.toNat ≠ i := by
        intro h
        apply hi
        rw [List.mem_singleton, ← h, Int.toNat_of_nonneg hid]
      simp only
      rw [List.getElem?_set_ne hne]
    · refine ⟨List.replicate (m + 1) ⟨id, pollURL st.s.Session_id id⟩, by rw [hm2], ?_⟩
      intro c hc
      rw [(List.mem_replicate.mp hc).2]
      exact List.mem_singleton.mpr rfl

/-- The join touches only the slots of the spawned pollers. -/
theorem Run.foldl_poll_joined (env : Env) :
    ∀ (l : List Int) (st : RunState), (∀ id, id ∈ l → 0 ≤ id) →
      Run.Joined l st (l.foldl (Run.poll env) st) := by
  intro l
  induction l with
  | nil => intro st _; exact Run.Joined.refl st
  | cons id l ih =>
    intro st h
    rw [List.foldl_cons]
    exact (Run.poll_joined env st id (h id (List.mem_cons_self _ _))).trans
      (ih _ (fun x hx => h x (List.mem_cons_of_mem _ hx)))

theorem Run.Inv.spawned_nonneg {env : Env} {N : Nat} {sid : String} {w0 : World} {k : Nat}
    {st : RunState} (h : Run.Inv env N sid w0 k st) : ∀ id, id ∈ st.spawned → 0 ≤ id := by
  intro id hid
  rw [h.spawned, List.mem_map] at hid
  obtain ⟨j, -, hj⟩ := hid
  rw [← hj]
  exact Int.ofNat_nonneg j

theorem Run.wgWait_joined (env : Env) {N : Nat} {sid : String} {w0 : World} {k : Nat}
    {st : RunState} (h : Run.Inv env N sid w0 k st) :
    Run.Joined st.spawned st (Run.wgWait env st) :=
  Run.foldl_poll_joined env st.spawned st h.spawned_nonneg

/-! ## `Run` as a whole -/

/-- The state in which the event loop of `Run` starts. -/
theorem Run.Inv.init (env : Env) (s : Session) (w1 : World) (sid : String) :
    Run.Inv env s.Config.EventCount sid w1 0
      { s := { s with Session_id := sid, Events := List.replicate s.Config.EventCount default }
        w := w1
        spawned := []
        panicked := none } := by
  refine ⟨Nat.zero_le _, by simp, rfl, rfl, by simp, rfl, by simp, by simp, ?_, by simp⟩
  intro i hi
  simp [List.getElem?_replicate, hi]

/-- The two ways a run goes: registration fails and nothing else happens; or registration
succeeds, the event loop submits the first `min N 2147483648` events in index order, and the
run either joins its pollers (`N ≤ 2147483648`) or has panicked (`N > 2147483648`). -/
theorem Run_cases (env : Env) (s : Session) (w : World) :
    (∃ e, (sendOutcome env w.posts.length (mkRequest EmptyEvent "")).2 = some e ∧
      Run env s w
        = { s := { s with
                    Session_id := (sendOutcome env w.posts.length (mkRequest EmptyEvent "")).1
                    Events := List.replicate s.Config.EventCount default
                    Err := some e }
            w := { w with posts := w.posts ++ [mkRequest EmptyEvent ""] }
            spawned := []
            panicked := none }) ∨
    ((sendOutcome env w.posts.length (mkRequest EmptyEvent "")).2 = none ∧
      ∃ st, Run.Inv env s.Config.EventCount
              (sendOutcome env w.posts.length (mkRequest EmptyEvent "")).1
              { w with posts := w.posts ++ [mkRequest EmptyEvent ""] }
              s.Config.EventCount st ∧
        ((s.Config.EventCount ≤ 2147483648 ∧ st.panicked = none ∧
            Run env s w = Run.wgWait env st) ∨
         (2147483648 < s.Config.EventCount ∧ Run env s w = st))) := by
  unfold Run
  simp only [SendEvent_eq]
  cases hout : (sendOutcome env w.posts.length (mkRequest EmptyEvent "")).2 with
  | some e => exact Or.inl ⟨e, rfl, rfl⟩
  | none =>
    refine Or.inr ⟨rfl, _, Run.loop_inv env s.Config.EventCount _ _ s.Config.EventCount 0 _
      (Run.Inv.init env s _ _) rfl (Nat.zero_add _), ?_⟩
    have hinv := Run.loop_inv env s.Config.EventCount
      (sendOutcome env w.posts.length (mkRequest EmptyEvent "")).1
      { w with posts := w.posts ++ [mkRequest EmptyEvent ""] } s.Config.EventCount 0 _
      (Run.Inv.init env s _ _) rfl (Nat.zero_add _)
    by_cases hN : s.Config.EventCount ≤ 2147483648
    · have hp := hinv.panic
      rw [if_pos hN] at hp
      refine Or.inl ⟨hN, hp, ?_⟩
      simp only [hp]
    · have hp := hinv.panic
      rw [if_neg hN] at hp
      refine Or.inr ⟨by omega, ?_⟩
      simp only [hp]

/-- The request of a submit call, written out: the session tag is set exactly when the
identifier is not empty. -/
theorem mkRequest_eq (data : DTOEvent) (sid : String) :
    mkRequest data sid
      = ⟨"POST", BASEURL ++ "/send", data,
          if sid = "" then [("Content-Type", "application/json; charset=UTF-8")]
          else [("Content-Type", "application/json; charset=UTF-8"), ("session_id", sid)]⟩ := by
  unfold mkRequest
  by_cases h : sid = ""
  · simp [h, Request.headerSet]
  · simp only [ne_eq, h, not_false_eq_true, if_true, if_false, Request.headerSet]
    have : (("Content-Type" : String) != "session_id") = true := by decide
    simp [List.filter, this]

/-- What registration returns, read off `SendEvent`. -/
theorem SendEvent_fst (env : Env) (w : World) (data : DTOEvent) (sid : String) :
    (SendEvent env w data sid).1 = sendOutcome env w.posts.length (mkRequest data sid) := by
  rw [SendEvent_eq]

/-- A run whose registration fails. -/
theorem Run_of_registration_error (env : Env) (s : Session) (w : World) (e : GoError)
    (hreg : (SendEvent env w EmptyEvent "").1.2 = some e) :
    Run env s w
      = { s := { s with
                  Session_id := (SendEvent env w EmptyEvent "").1.1
                  Events := List.replicate s.Config.EventCount default
                  Err := some e }
          w := { w with posts := w.posts ++ [mkRequest EmptyEvent ""] }
          spawned := []
          panicked := none } := by
  rw [SendEvent_fst] at hreg ⊢
  rcases Run_cases env s w with ⟨e', he', h⟩ | ⟨hnone, -⟩
  · rw [hreg] at he'; cases he'; exact h
  · rw [hreg] at hnone; cases hnone

/-- A run whose registration succeeds: the state `st` in which the event loop ends, and the
join (or the panic) that follows. -/
theorem Run_of_registration_ok (env : Env) (s : Session) (w : World)
    (hreg : (SendEvent env w EmptyEvent "").1.2 = none) :
    ∃ st, Run.Inv env s.Config.EventCount (SendEvent env w EmptyEvent "").1.1
            { w with posts := w.posts ++ [mkRequest EmptyEvent ""] } s.Config.EventCount st ∧
      ((s.Config.EventCount ≤ 2147483648 ∧ st.panicked = none ∧
          Run.Joined st.spawned st (Run env s w)) ∨
       (2147483648 < s.Config.EventCount ∧ Run env s w = st)) := by
  rw [SendEvent_fst] at hreg ⊢
  rcases Run_cases env s w with ⟨e', he', -⟩ | ⟨-, st, hinv, h⟩
  · rw [hreg] at he'; cases he'
  · refine ⟨st, hinv, ?_⟩
    rcases h with ⟨hN, hp, hrun⟩ | ⟨hN, hrun⟩
    · exact Or.inl ⟨hN, hp, by rw [hrun]; exact Run.wgWait_joined env hinv⟩
    · exact Or.inr ⟨hN, hrun⟩

/-- The requests of a run whose registration succeeds: registration, then the first
`min N 2147483648` events in index order, each made with the registered identifier. -/
theorem Run_posts_of_registration_ok (env : Env) (s : Session) (w : World)
    (hreg : (SendEvent env w EmptyEvent "").1.2 = none) :
    (Run env s w).w.posts
      = w.posts ++ mkRequest EmptyEvent "" ::
          (List.range (min s.Config.EventCount 2147483648)).map
            (fun (i : Nat) => mkRequest (eventData i) (SendEvent env w EmptyEvent "").1.1) ∧
    (Run env s w).s.Session_id = (SendEvent env w EmptyEvent "").1.1 := by
  obtain ⟨st, hinv, h⟩ := Run_of_registration_ok env s w hreg
  rcases h with ⟨-, -, hj⟩ | ⟨-, hrun⟩
  · refine ⟨?_, hj.sid_eq.trans hinv.sid_eq⟩
    rw [hj.posts, hinv.posts]; simp
  · refine ⟨?_, by rw [hrun]; exact hinv.sid_eq⟩
    rw [hrun, hinv.posts]; simp

/-! ## Claims about `Run` -/

/-- C6 (as the code has it): for every configured event count `N`, when the registration call
of `Run` fails the session ends with its session-level error set, the registration request is
the only call made (no event is submitted, no confirmation query is issued, no poller is
started), and the outcome sequence, which `Run` allocates before it looks at the error, has
length `N` with every slot still at its zero value. -/
theorem Run_registration_failure (env : Env) (s : Session) (w : World) (e : GoError)
    (hreg : (SendEvent env w EmptyEvent "").1.2 = some e) :
    (Run env s w).s.Err = some e ∧
    (Run env s w).s.Events = List.replicate s.Config.EventCount default ∧
    (Run env s w).s.Events.length = s.Config.EventCount ∧
    (Run env s w).w.posts = w.posts ++ [mkRequest EmptyEvent ""] ∧
    (Run env s w).w.gets = w.gets ∧
    (Run env s w).spawned = [] ∧
    (Run env s w).panicked = none := by
  rw [Run_of_registration_error env s w e hreg]
  exact ⟨rfl, rfl, by simp, rfl, rfl, rfl, rfl⟩

/-- C6 at an unreachable service, for a session configured for three events. -/
theorem Run_registration_failure_witness :
    (Run (sampleEnv (fun _ => .error connRefused) (fun _ => bodyOk) none)
        (Session.fresh 3) World.init).s.Err = some connRefused ∧
    (Run (sampleEnv (fun _ => .error connRefused) (fun _ => bodyOk) none)
        (Session.fresh 3) World.init).s.Events = [default, default, default] ∧
    (Run (sampleEnv (fun _ => .error connRefused) (fun _ => bodyOk) none)
        (Session.fresh 3) World.init).s.Events.length = 3 ∧
    (Run (sampleEnv (fun _ => .error connRefused) (fun _ => bodyOk) none)
        (Session.fresh 3) World.init).w.posts = [mkRequest EmptyEvent ""] ∧
    (Run (sampleEnv (fun _ => .error connRefused) (fun _ => bodyOk) none)
        (Session.fresh 3) World.init).w.gets = [] ∧
    (Run (sampleEnv (fun _ => .error connRefused) (fun _ => bodyOk) none)
        (Session.fresh 3) World.init).spawned = [] ∧
    (Run (sampleEnv (fun _ => .error connRefused) (fun _ => bodyOk) none)
        (Session.fresh 3) World.init).panicked = none :=
  Run_registration_failure (sampleEnv (fun _ => .error connRefused) (fun _ => bodyOk) none)
    (Session.fresh 3) World.init connRefused rfl

/-- C6 (as the claim states it) fails: registration fails at the transport level for a session
configured for three events, the session-level error is set, and the session holds three
event outcomes, not zero. -/
theorem Run_events_allocated_before_error_check :
    (SendEvent (sampleEnv (fun _ => .error connRefused) (fun _ => bodyOk) none)
        World.init EmptyEvent "").1 = ("", some connRefused) ∧
    (Run (sampleEnv (fun _ => .error connRefused) (fun _ => bodyOk) none)
        (Session.fresh 3) World.init).s.Err = some connRefused ∧
    (Run (sampleEnv (fun _ => .error connRefused) (fun _ => bodyOk) none)
        (Session.fresh 3) World.init).s.Events.length = 3 ∧
    ¬ (Run (sampleEnv (fun _ => .error connRefused) (fun _ => bodyOk) none)
        (Session.fresh 3) World.init).s.Events.length = 0 := by
  decide

/-- C7 (as the code has it): whenever `Run` issues an event submission (the request at position
`j` after the registration request), the registration call has returned without error, the
session's identifier is the one registration returned, and the submission is made with that
identifier: it carries the header `session_id` with that value when the identifier is not empty,
and no `session_id` header at all when it is empty (an empty registration response body, or one
that decodes to an empty identifier, is not an error). -/
theorem Run_event_submission_identifier (env : Env) (s : Session) (w : World) (j : Nat)
    (req : Request)
    (hj : (Run env s w).w.posts[w.posts.length + 1 + j]? = some req) :
    (SendEvent env w EmptyEvent "").1.2 = none ∧
    (Run env s w).s.Session_id = (SendEvent env w EmptyEvent "").1.1 ∧
    req = mkRequest (eventData j) (Run env s w).s.Session_id ∧
    ((Run env s w).s.Session_id ≠ "" →
      req.Header = [("Content-Type", "application/json; charset=UTF-8"),
                    ("session_id", (Run env s w).s.Session_id)]) ∧
    ((Run env s w).s.Session_id = "" →
      req.Header = [("Content-Type", "application/json; charset=UTF-8")]) := by
  cases hreg : (SendEvent env w EmptyEvent "").1.2 with
  | some e =>
    rw [Run_of_registration_error env s w e hreg] at hj
    simp only at hj
    rw [List.getElem?_eq_none (by simp)] at hj
    cases hj
  | none =>
    obtain ⟨hposts, hsid⟩ := Run_posts_of_registration_ok env s w hreg
    rw [hposts, List.getElem?_append_right (by omega)] at hj
    have hidx : w.posts.length + 1 + j - w.posts.length = j + 1 := by omega
    rw [hidx, List.getElem?_cons_succ, List.getElem?_map] at hj
    cases hr : (List.range (min s.Config.EventCount 2147483648))[j]? with
    | none => rw [hr] at hj; cases hj
    | some i =>
      have hij : i = j := by
        have hlt : j < (List.range (min s.Config.EventCount 2147483648)).length := by
          by_contra hge
          rw [List.getElem?_eq_none (by omega)] at hr
          cases hr
        rw [List.getElem?_range (by simpa using hlt)] at hr
        cases hr; rfl
      subst hij
      rw [hr] at hj
      have hj : mkRequest (eventData (i : Nat)) (SendEvent env w EmptyEvent "").1.1 = req :=
        Option.some.inj hj
      rw [hsid]
      refine ⟨rfl, rfl, hj.symm, ?_, ?_⟩
      · intro hne; rw [← hj, mkRequest_eq]; simp [hne]
      · intro he; rw [← hj, mkRequest_eq]; simp [he]

/-- C7 at a service that answers registration with the identifier "s-1": the one event of the
session is submitted with the header `session_id: s-1`. -/
theorem Run_event_submission_identifier_witness :
    (SendEvent (sampleEnv (fun k => if k = 0 then bodyOk else .error connRefused)
        (fun _ => bodyOk) none) World.init EmptyEvent "").1.2 = none ∧
    (Run (sampleEnv (fun k => if k = 0 then bodyOk else .error connRefused) (fun _ => bodyOk) none)
        (Session.fresh 1) World.init).s.Session_id
      = (SendEvent (sampleEnv (fun k => if k = 0 then bodyOk else .error connRefused)
          (fun _ => bodyOk) none) World.init EmptyEvent "").1.1 ∧
    mkRequest (eventData 0) "s-1"
      = mkRequest (eventData (0 : Nat))
          (Run (sampleEnv (fun k => if k = 0 then bodyOk else .error connRefused)
            (fun _ => bodyOk) none) (Session.fresh 1) World.init).s.Session_id ∧
    ((Run (sampleEnv (fun k => if k = 0 then bodyOk else .error connRefused) (fun _ => bodyOk) none)
        (Session.fresh 1) World.init).s.Session_id ≠ "" →
      (mkRequest (eventData 0) "s-1").Header
        = [("Content-Type", "application/json; charset=UTF-8"),
           ("session_id",
            (Run (sampleEnv (fun k => if k = 0 then bodyOk else .error connRefused)
              (fun _ => bodyOk) none) (Session.fresh 1) World.init).s.Session_id)]) ∧
    ((Run (sampleEnv (fun k => if k = 0 then bodyOk else .error connRefused) (fun _ => bodyOk) none)
        (Session.fresh 1) World.init).s.Session_id = "" →
      (mkRequest (eventData 0) "s-1").Header
        = [("Content-Type", "application/json; charset=UTF-8")]) :=
  Run_event_submission_identifier
    (sampleEnv (fun k => if k = 0 then bodyOk else .error connRefused) (fun _ => bodyOk) none)
    (Session.fresh 1) World.init 0 (mkRequest (eventData 0) "s-1") (by decide)

/-- C7 (as the claim states it) fails: registration is answered with an empty body, which
`SendEvent` returns as the empty identifier with no error; the one event of the session is
then submitted while the session identifier is empty, in a request with no `session_id`
header. -/
theorem Run_event_submitted_with_empty_identifier :
    (SendEvent (sampleEnv (fun k => if k = 0 then emptyOk else .error connRefused)
        (fun _ => bodyOk) none) World.init EmptyEvent "").1 = ("", none) ∧
    (Run (sampleEnv (fun k => if k = 0 then emptyOk else .error connRefused)
        (fun _ => bodyOk) none) (Session.fresh 1) World.init).s.Session_id = "" ∧
    (Run (sampleEnv (fun k => if k = 0 then emptyOk else .error connRefused)
        (fun _ => bodyOk) none) (Session.fresh 1) World.init).w.posts
      = [⟨"POST", BASEURL ++ "/send", EmptyEvent,
            [("Content-Type", "application/json; charset=UTF-8")]⟩,
         ⟨"POST", BASEURL ++ "/send", ⟨"event", 0, 0, "event_0", ""⟩,
            [("Content-Type", "application/json; charset=UTF-8")]⟩] := by
  decide

/-- C8: in a run of `Run` whose registration succeeded, for every event index `i` whose submit
call is issued (`i < N`, `i < 2147483648`) and fails with `e` (it is call number `i + 1` of the
session, made with the registered identifier): slot `i` of the outcome sequence holds the error
`e`, its poll-start time, poll-end time and attempt-count are still the zero values, no poller
is started for event `i`, and none of the confirmation queries issued during the run is about
event `i`. -/
theorem Run_submission_failure (env : Env) (s : Session) (w : World) (i : Nat) (e : GoError)
    (hreg : (SendEvent env w EmptyEvent "").1.2 = none)
    (hi : i < s.Config.EventCount) (h31 : i < 2147483648)
    (hfail : (sendOutcome env (w.posts.length + 1 + i)
        (mkRequest (eventData i) (SendEvent env w EmptyEvent "").1.1)).2 = some e) :
    (∃ slot, (Run env s w).s.Events[i]? = some slot ∧ slot.Err = some e ∧
      slot.Brecv = 0 ∧ slot.Arecv = 0 ∧ slot.Attempts = 0) ∧
    (i : Int) ∉ (Run env s w).spawned ∧
    (∃ new, (Run env s w).w.gets = w.gets ++ new ∧ ∀ c, c ∈ new → c.event_id ≠ (i : Int)) := by
  obtain ⟨st, hinv, h⟩ := Run_of_registration_ok env s w hreg
  have hlt : i < min s.Config.EventCount 2147483648 := by omega
  have hslot := hinv.slots i hi
  rw [if_pos hlt] at hslot
  have hlen : ({ w with posts := w.posts ++ [mkRequest EmptyEvent ""] } : World).posts.length + i
      = w.posts.length + 1 + i := by simp
  have hErr : (submittedSlot env { w with posts := w.posts ++ [mkRequest EmptyEvent ""] }
      (SendEvent env w EmptyEvent "").1.1 i).Err = some e := by
    unfold submittedSlot
    simp only
    rw [hlen]; exact hfail
  have hnot : (i : Int) ∉ st.spawned := by
    rw [hinv.spawned]
    intro hmem
    obtain ⟨j, hj, hji⟩ := List.mem_map.mp hmem
    have hji' : j = i := Int.ofNat.inj hji
    subst hji'
    have hp := (List.mem_filter.mp hj).2
    rw [hlen, hfail] at hp
    simp at hp
  rcases h with ⟨-, -, hj⟩ | ⟨-, hrun⟩
  · refine ⟨⟨_, (hj.slots i hnot).trans hslot, hErr, rfl, rfl, rfl⟩, by rw [hj.spawned]; exact hnot,
      ?_⟩
    obtain ⟨new, hg, hn⟩ := hj.gets
    refine ⟨new, by rw [hg, hinv.gets], ?_⟩
    intro c hc heq
    exact hnot (heq ▸ hn c hc)
  · rw [hrun]
    exact ⟨⟨_, hslot, hErr, rfl, rfl, rfl⟩, hnot, [], by rw [hinv.gets]; simp,
      fun _ hc => absurd hc (List.not_mem_nil _)⟩

/-- C8 at a service that registers the session and then drops the connection: the one event
of the session fails to submit and is not polled. -/
theorem Run_submission_failure_witness :
    (∃ slot, (Run (sampleEnv (fun k => if k = 0 then bodyOk else .error connRefused)
          (fun _ => bodyOk) none) (Session.fresh 1) World.init).s.Events[0]? = some slot ∧
        slot.Err = some connRefused ∧ slot.Brecv = 0 ∧ slot.Arecv = 0 ∧ slot.Attempts = 0) ∧
    ((0 : Nat) : Int) ∉ (Run (sampleEnv (fun k => if k = 0 then bodyOk else .error connRefused)
          (fun _ => bodyOk) none) (Session.fresh 1) World.init).spawned ∧
    (∃ new, (Run (sampleEnv (fun k => if k = 0 then bodyOk else .error connRefused)
          (fun _ => bodyOk) none) (Session.fresh 1) World.init).w.gets = World.init.gets ++ new ∧
        ∀ c, c ∈ new → c.event_id ≠ ((0 : Nat) : Int)) :=
  Run_submission_failure
    (sampleEnv (fun k => if k = 0 then bodyOk else .error connRefused) (fun _ => bodyOk) none)
    (Session.fresh 1) World.init 0 connRefused (by decide) (by decide) (by decide) (by decide)

/-- A run whose registration succeeded and whose event count is at most `2147483648` returns,
with an outcome sequence of exactly the configured length. -/
theorem Run_completes (env : Env) (s : Session) (w : World)
    (hN : s.Config.EventCount ≤ 2147483648)
    (hreg : (SendEvent env w EmptyEvent "").1.2 = none) :
    (Run env s w).panicked = none ∧
    (Run env s w).s.Events.length = s.Config.EventCount := by
  obtain ⟨st, hinv, h⟩ := Run_of_registration_ok env s w hreg
  rcases h with ⟨-, hp, hj⟩ | ⟨hgt, -⟩
  · exact ⟨hj.panicked.trans hp, hj.len.trans hinv.len⟩
  · omega

/-- C9 fails on the code for event counts above `2147483648` (still values of `uint32`): in a
run whose registration succeeded, after the first `2147483648` events have been submitted the
conversion `int32(reqno)` yields `-2147483648`, the slot index `s.Events[id]` is out of range
and `Run` panics instead of completing. -/
theorem Run_index_out_of_range (env : Env) (s : Session) (w : World)
    (hN : 2147483648 < s.Config.EventCount)
    (hreg : (SendEvent env w EmptyEvent "").1.2 = none) :
    (Run env s w).panicked = some "index out of range [-2147483648]" ∧
    (Run env s w).s.Events.length = s.Config.EventCount ∧
    (Run env s w).w.posts.length = w.posts.length + 1 + 2147483648 := by
  obtain ⟨st, hinv, h⟩ := Run_of_registration_ok env s w hreg
  rcases h with ⟨hle, -, -⟩ | ⟨-, hrun⟩
  · omega
  · rw [hrun]
    refine ⟨by rw [hinv.panic, if_neg (by omega)], hinv.len, ?_⟩
    rw [hinv.posts_length]
    simp only [List.length_append, List.length_singleton]
    omega

/-- C9 at the event count `2147483649`, with a service that accepts every submission. -/
theorem Run_index_out_of_range_witness :
    (Run (sampleEnv (fun _ => bodyOk) (fun _ => bodyOk) none)
        (Session.fresh 2147483649) World.init).panicked
      = some "index out of range [-2147483648]" ∧
    (Run (sampleEnv (fun _ => bodyOk) (fun _ => bodyOk) none)
        (Session.fresh 2147483649) World.init).s.Events.length = 2147483649 ∧
    (Run (sampleEnv (fun _ => bodyOk) (fun _ => bodyOk) none)
        (Session.fresh 2147483649) World.init).w.posts.length = 0 + 1 + 2147483648 :=
  Run_index_out_of_range (sampleEnv (fun _ => bodyOk) (fun _ => bodyOk) none)
    (Session.fresh 2147483649) World.init (by decide) (by decide)

/-- C10 (as the code has it): for every event count `N ≤ 2147483648` and every outcome of the
individual transport calls, the requests issued by `Run` are, in order: the registration
request, carrying the empty placeholder event and no `session_id` header; then nothing more
(no submission, no confirmation query, no poller) when registration failed; otherwise exactly
one submission for each index `0, 1, ..., N-1` in increasing order, carrying the event of that
index (type "event", small-int field `i`, short-string field "event_i") and made with the
registered identifier: tagged with the header `session_id` when the identifier is not empty,
untagged when it is empty.  A failed submission does not stop the later ones. -/
theorem Run_submit_sequence (env : Env) (s : Session) (w : World)
    (hN : s.Config.EventCount ≤ 2147483648) :
    (Run env s w).w.posts
      = w.posts ++
          (⟨"POST", BASEURL ++ "/send", ⟨"", 0, 0, "", ""⟩,
              [("Content-Type", "application/json; charset=UTF-8")]⟩ : Request) ::
          (match (SendEvent env w EmptyEvent "").1.2 with
            | some _ => []
            | none =>
              (List.range s.Config.EventCount).map (fun (i : Nat) =>
                (⟨"POST", BASEURL ++ "/send", ⟨"event", (i : Int), 0, "event_" ++ toString i, ""⟩,
                  if (SendEvent env w EmptyEvent "").1.1 = "" then
                    [("Content-Type", "application/json; charset=UTF-8")]
                  else
                    [("Content-Type", "application/json; charset=UTF-8"),
                     ("session_id", (SendEvent env w EmptyEvent "").1.1)]⟩ : Request))) ∧
    ((SendEvent env w EmptyEvent "").1.2 ≠ none →
      (Run env s w).w.gets = w.gets ∧ (Run env s w).spawned = []) := by
  have hregReq : mkRequest EmptyEvent ""
      = ⟨"POST", BASEURL ++ "/send", ⟨"", 0, 0, "", ""⟩,
          [("Content-Type", "application/json; charset=UTF-8")]⟩ := by
    rw [mkRequest_eq]; rfl
  cases hreg : (SendEvent env w EmptyEvent "").1.2 with
  | some e =>
    rw [Run_of_registration_error env s w e hreg]
    refine ⟨?_, fun _ => ⟨rfl, rfl⟩⟩
    simp only [hregReq]
  | none =>
    refine ⟨?_, fun h => absurd rfl h⟩
    rw [(Run_posts_of_registration_ok env s w hreg).1, hregReq, Nat.min_eq_left hN]
    simp only [mkRequest_eq]
    rfl

/-- C10 at a service that registers the session as "s-1" and then fails every other
submission: all three events are submitted, in order, tagged with "s-1". -/
theorem Run_submit_sequence_witness :
    (Run (sampleEnv (fun k => if k % 2 = 0 then bodyOk else .error connRefused)
        (fun _ => .error connRefused) none) (Session.fresh 3) World.init).w.posts
      = World.init.posts ++
          (⟨"POST", BASEURL ++ "/send", ⟨"", 0, 0, "", ""⟩,
              [("Content-Type", "application/json; charset=UTF-8")]⟩ : Request) ::
          (match (SendEvent (sampleEnv (fun k => if k % 2 = 0 then bodyOk else .error connRefused)
              (fun _ => .error connRefused) none) World.init EmptyEvent "").1.2 with
            | some _ => []
            | none =>
              (List.range (Session.fresh 3).Config.EventCount).map (fun (i : Nat) =>
                (⟨"POST", BASEURL ++ "/send", ⟨"event", (i : Int), 0, "event_" ++ toString i, ""⟩,
                  if (SendEvent (sampleEnv
                      (fun k => if k % 2 = 0 then bodyOk else .error connRefused)
                      (fun _ => .error connRefused) none) World.init EmptyEvent "").1.1 = "" then
                    [("Content-Type", "application/json; charset=UTF-8")]
                  else
                    [("Content-Type", "application/json; charset=UTF-8"),
                     ("session_id", (SendEvent (sampleEnv
                      (fun k => if k % 2 = 0 then bodyOk else .error connRefused)
                      (fun _ => .error connRefused) none) World.init EmptyEvent "").1.1)]⟩ :
                  Request))) :=
  (Run_submit_sequence (sampleEnv (fun k => if k % 2 = 0 then bodyOk else .error connRefused)
    (fun _ => .error connRefused) none) (Session.fresh 3) World.init (by decide)).1

/-- C10 (as the claim states it) fails: registration is answered with an empty body, so the
registered identifier is empty, and the submission of event `0` is issued without any session
tag: no request of the run carries a `session_id` header. -/
theorem Run_event_submitted_untagged :
    (Run (sampleEnv (fun _ => emptyOk) (fun _ => .error connRefused) none)
        (Session.fresh 1) World.init).w.posts.length = 2 ∧
    (∀ req, req ∈ (Run (sampleEnv (fun _ => emptyOk) (fun _ => .error connRefused) none)
        (Session.fresh 1) World.init).w.posts → ∀ v, ("session_id", v) ∉ req.Header) ∧
    (Run (sampleEnv (fun _ => emptyOk) (fun _ => .error connRefused) none)
        (Session.fresh 1) World.init).w.posts[1]?
      = some ⟨"POST", BASEURL ++ "/send", ⟨"event", 0, 0, "event_0", ""⟩,
          [("Content-Type", "application/json; charset=UTF-8")]⟩ := by
  have h := (Run_posts_of_registration_ok
    (sampleEnv (fun _ => emptyOk) (fun _ => .error connRefused) none)
    (Session.fresh 1) World.init (by decide)).1
  rw [h]
  refine ⟨by decide, ?_, by decide⟩
  intro req hreq v hv
  have hreq' : req = mkRequest EmptyEvent "" ∨ req = mkRequest (eventData 0) "" := by
    simpa [World.init, Session.fresh, List.range_succ, SendEvent_fst, sendOutcome, sampleEnv,
      emptyOk] using hreq
  rcases hreq' with h1 | h1
  · rw [h1, mkRequest_eq] at hv; simp at hv
  · rw [h1, mkRequest_eq] at hv; simp at hv

end Stressio
